import Mathlib

/-!
Verification of the hex-globe territory core (`src/core/World.ts`).

The embedding models the `World` class of `src/core/World.ts`: its parallel
cell arrays, the nearest-cell linear scan shared verbatim by `placeCapital`,
`isSea` and `startExpansion`, the ownership mutations, the biome
classification of `generateWorldData`, and the snapshot loading of
`buildWorldFromData`.  JavaScript numbers are modelled as rationals;
rendering-only effects (meshes, materials, colors) are omitted.  External
library calls (h3-js cell enumeration, `Math.sin`-based noise samples) are
abstracted as function parameters.
-/

/-- 3D point, mirroring `THREE.Vector3` as used for cell centers. -/
structure Vec3 where
  x : ℚ
  y : ℚ
  z : ℚ
deriving DecidableEq, Repr

/-- `pt.distanceToSquared(c)`: squared Euclidean distance. -/
def distSq (a b : Vec3) : ℚ :=
  (a.x - b.x) ^ 2 + (a.y - b.y) ^ 2 + (a.z - b.z) ^ 2

/-- The nearest-cell linear scan of `placeCapital` / `isSea` /
`startExpansion`: `best = -1; bestd = Infinity; for i: if (d < bestd) ...`.
The accumulator `none` models `best === -1`. -/
def nearestAux (pt : Vec3) : List Vec3 → ℕ → Option (ℕ × ℚ) → Option (ℕ × ℚ)
  | [], _, acc => acc
  | c :: rest, i, acc =>
      let d := distSq pt c
      let acc2 : Option (ℕ × ℚ) :=
        match acc with
        | none => some (i, d)
        | some (bi, bd) => if d < bd then some (i, d) else some (bi, bd)
      nearestAux pt rest (i + 1) acc2

/-- The index produced by the scan (`best`), `none` when the center list is
empty (`best === -1`).  This single definition stands for the three
textually identical loops in `placeCapital`, `isSea` and `startExpansion`. -/
def nearestCell (pt : Vec3) (centers : List Vec3) : Option ℕ :=
  (nearestAux pt centers 0 none).map Prod.fst

/-- Biome labels of `World.ts`. -/
inductive Biome where
  | ocean
  | coast
  | desert
  | land
  | mountain
  | pole
deriving DecidableEq, Repr

/-- The biome decision chain of `generateWorldData` (World.ts lines
295-305): pole when `|lat| > 72`, else ocean below `seaLevel = 0.5`, else
coast below `seaLevel + 0.03`, else mountain above `0.8`, else desert/land
by the dryness sample.  The dryness sample `dry` (computed in the source by
a `Math.sin`-based hash of the center position) is passed as a parameter
because it is transcendental; the decision order does not depend on it. -/
def classifyBiome (lat elevation dry : ℚ) : Biome :=
  let seaLevel : ℚ := 1 / 2
  if 72 < |lat| then Biome.pole
  else if elevation < seaLevel then Biome.ocean
  else if elevation < seaLevel + 3 / 100 then Biome.coast
  else if 4 / 5 < elevation then Biome.mountain
  else if 7 / 10 < dry then Biome.desert
  else Biome.land

/-- City record (`{ mesh, name, health }` with the mesh omitted). -/
structure City where
  name : String
  health : ℚ
deriving DecidableEq, Repr

/-- Projectile record (`{ mesh, curve, progress, speed }` with the
rendering parts omitted; `curve.getPoint` only moves the mesh). -/
structure Projectile where
  progress : ℚ
  speed : ℚ
deriving DecidableEq, Repr

/-- Serializable world snapshot (`interface WorldData`). -/
structure WorldData where
  centers : List Vec3
  centerNeighbors : List (List ℕ)
  centerWater : List Bool
  centerLat : List ℚ
  centerLng : List ℚ
  hexagons : List String
  biomes : List Biome
  elevations : List ℚ
deriving DecidableEq, Repr

/-- The mutable state of the `World` class relevant to the claims. -/
structure WorldState where
  centers : List Vec3
  centerNeighbors : List (List ℕ)
  centerWater : List Bool
  centerOwned : List Bool
  centerLat : List ℚ
  centerLng : List ℚ
  hexagons : List String
  biomes : List Biome
  elevations : List ℚ
  territorySize : ℕ
  capitalPlaced : Bool
  cities : List City
  projectiles : List Projectile
deriving DecidableEq, Repr

/-- `buildWorldFromData` (World.ts lines 323-332): copies every snapshot
array into the world unchanged and initializes `centerOwned` to all-false.
The constructor initializes `territorySize = 0`, `cities = []`,
`projectiles = []`, `capitalPlaced = false`.  No validation of any kind is
performed on the snapshot. -/
def buildWorldFromData (d : WorldData) : WorldState :=
  { centers := d.centers
    centerNeighbors := d.centerNeighbors
    centerWater := d.centerWater
    centerOwned := List.replicate d.centers.length false
    centerLat := d.centerLat
    centerLng := d.centerLng
    hexagons := d.hexagons
    biomes := d.biomes
    elevations := d.elevations
    territorySize := 0
    capitalPlaced := false
    cities := []
    projectiles := [] }

/-- `spawnCityAtIndex` (World.ts lines 427-462): pushes a City with health
100, sets `centerOwned[centerIdx] = true`, increments `territorySize`
(mesh/flag construction omitted). -/
def spawnCityAtIndex (w : WorldState) (centerIdx : ℕ) (name : String) : WorldState :=
  { w with
    cities := w.cities ++ [{ name := name, health := 100 }]
    centerOwned := w.centerOwned.set centerIdx true
    territorySize := w.territorySize + 1 }

/-- `placeCapital` (World.ts lines 464-479).  The `intersection.point`
argument is modelled as `Option Vec3` (`none` for a missing intersection or
point).  `centerWater[best]` reads `false` when out of bounds, matching
JavaScript `undefined` being falsy. -/
def placeCapital (w : WorldState) (input : Option Vec3) : Bool × WorldState :=
  match input with
  | none => (false, w)
  | some pt =>
    match nearestCell pt w.centers with
    | none => (false, w)
    | some best =>
      if w.centerWater.getD best false then (false, w)
      else (true, spawnCityAtIndex w best "Capital")

/-- `isSea` (World.ts lines 481-495), for an input already resolved to an
optional point. -/
def isSea (w : WorldState) (input : Option Vec3) : Bool :=
  match input with
  | none => true
  | some pt =>
    match nearestCell pt w.centers with
    | none => true
    | some best => w.centerWater.getD best false

/-- `startExpansion` (World.ts lines 497-523).  `anyOwned` is
`centerOwned.some(v => v)`, `adjacent` is
`(centerNeighbors[best] || []).some(n => centerOwned[n])`; the claim is
rejected when `anyOwned && !adjacent`, otherwise the cell is marked owned
and `territorySize` incremented (hex recoloring omitted). -/
def startExpansion (w : WorldState) (input : Option Vec3) (_speed : ℚ) : Bool × WorldState :=
  match input with
  | none => (false, w)
  | some pt =>
    match nearestCell pt w.centers with
    | none => (false, w)
    | some best =>
      if w.centerWater.getD best false then (false, w)
      else
        let anyOwned := w.centerOwned.any (fun v => v)
        let adjacent := (w.centerNeighbors.getD best []).any (fun n => w.centerOwned.getD n false)
        if anyOwned && !adjacent then (false, w)
        else
          (true, { w with
                    centerOwned := w.centerOwned.set best true
                    territorySize := w.territorySize + 1 })

/-- One projectile step of `update` (World.ts lines 529-542): advance
progress, remove on completion. -/
def stepProjectile (delta : ℚ) (p : Projectile) : Option Projectile :=
  let pr := p.progress + delta * p.speed
  if 1 ≤ pr then none else some { p with progress := pr }

/-- `update(delta, _gameActive)` (World.ts lines 529-542): only the
projectile list changes; ownership and territory are untouched. -/
def update (w : WorldState) (delta : ℚ) (_gameActive : Bool) : WorldState :=
  { w with projectiles := w.projectiles.filterMap (stepProjectile delta) }

/-- The operations a driver may perform on a built world. -/
inductive Op where
  | update (delta : ℚ) (gameActive : Bool)
  | placeCapital (input : Option Vec3)
  | startExpansion (input : Option Vec3) (speed : ℚ)

/-- Apply one operation, discarding the boolean result. -/
def applyOp (w : WorldState) : Op → WorldState
  | Op.update delta g => update w delta g
  | Op.placeCapital input => (placeCapital w input).2
  | Op.startExpansion input s => (startExpansion w input s).2

/-- Run a sequence of operations. -/
def runOps (w : WorldState) (ops : List Op) : WorldState :=
  ops.foldl applyOp w

/-- The neighbor-array build of `generateWorldData` (World.ts lines
271-274): for each hexagon, the h3 `gridDisk(h, 1)` result minus the cell
itself, translated through `hexToIndex` with missing ids dropped.  The h3
call is abstracted as `disk`; `hexToIndex` maps an id to its (unique, the
hexagon list being duplicate-free) position in `hexagons`. -/
def centerNeighborsOf (hexagons : List String) (disk : String → List String) :
    List (List ℕ) :=
  hexagons.map (fun h =>
    ((disk h).filter (fun n => n ≠ h)).filterMap
      (fun n => if n ∈ hexagons then some (hexagons.indexOf n) else none))

/-- `generateWorldData` (World.ts lines 247-321), parametrized by the
external h3-js results (`hexagons` from `polygonToCells`, `latlng` for
`cellToLatLng`, `disk` for `gridDisk`) and by the transcendental samples
(`toVec` for `latLngToVector3`, `elevOf` for the sine-based elevation
noise, `dryOf` for the dryness hash of the center position).  Every output
array is built per hexagon exactly as in the source loop; the function is
total — the source has no failure path, whatever the cell count. -/
def generateWorldData (hexagons : List String) (latlng : String → ℚ × ℚ)
    (disk : String → List String) (toVec : ℚ → ℚ → Vec3)
    (elevOf : ℚ → ℚ → ℚ) (dryOf : Vec3 → ℚ) : WorldData :=
  let biomeAt : String → Biome := fun h =>
    classifyBiome (latlng h).1 (elevOf (latlng h).1 (latlng h).2)
      (dryOf (toVec (latlng h).1 (latlng h).2))
  { centers := hexagons.map (fun h => toVec (latlng h).1 (latlng h).2)
    centerNeighbors := centerNeighborsOf hexagons disk
    centerWater := hexagons.map (fun h => decide (biomeAt h = Biome.ocean))
    centerLat := hexagons.map (fun h => (latlng h).1)
    centerLng := hexagons.map (fun h => (latlng h).2)
    hexagons := hexagons
    biomes := hexagons.map biomeAt
    elevations := hexagons.map (fun h => elevOf (latlng h).1 (latlng h).2) }

/-- Modelled from the spec: the structural-validity check §6 demands of a
loaded snapshot ("array-length equality and index-bounds of neighbor
lists").  No such check exists anywhere in src; this definition follows the
spec's words and is compared against the loader `buildWorldFromData`. -/
def validSnapshot (d : WorldData) : Bool :=
  decide (d.centerNeighbors.length = d.centers.length) &&
  decide (d.centerWater.length = d.centers.length) &&
  decide (d.centerLat.length = d.centers.length) &&
  decide (d.centerLng.length = d.centers.length) &&
  decide (d.hexagons.length = d.centers.length) &&
  decide (d.biomes.length = d.centers.length) &&
  decide (d.elevations.length = d.centers.length) &&
  d.centerNeighbors.all (fun ns => ns.all (fun n => n < d.centers.length))

/-- Modelled from the spec: the in-flight `ConquestInProgress` record of
§3/§4.3 (`{ targetCell, committedForce, elapsed, required }`); the
time-gated capture policy is absent from src (the source implements only
the instant policy). -/
structure ClaimRec where
  targetCell : ℕ
  committedForce : ℚ
  elapsed : ℚ
  required : ℚ
deriving DecidableEq, Repr

/-- Modelled from the spec: §4.3 capture-time formula
`required = baseTime / min(maxBonus, committedForce / forceNorm)`. -/
def requiredTime (baseTime forceNorm maxBonus committedForce : ℚ) : ℚ :=
  baseTime / min maxBonus (committedForce / forceNorm)

/-- Modelled from the spec: the time-gated engine parameters of §4.3. -/
structure GatedConfig where
  baseTime : ℚ
  forceNorm : ℚ
  maxBonus : ℚ
deriving DecidableEq, Repr

/-- Modelled from the spec: the ownership state of the time-gated
TerritoryEngine variant of §4.3 (absent from src), reduced to the fields
the timing behavior touches. -/
structure GatedState where
  centerOwned : List Bool
  territorySize : ℕ
  claiming : Option ClaimRec
deriving DecidableEq, Repr

/-- Modelled from the spec: the time-gated `requestExpansion` success path
of §4.3 — fails on non-positive force or while a claim is in flight
(the spec's recommended at-most-one-claim policy); on success "computes
`required = baseTime / min(maxBonus, committedForce/forceNorm)` and opens
a Claiming record for that cell; returns true".  The water/adjacency gates
are those of the instant policy and are settled separately against the
source. -/
def requestExpansionGated (cfg : GatedConfig) (s : GatedState) (target : ℕ)
    (committedForce : ℚ) : Bool × GatedState :=
  if committedForce ≤ 0 then (false, s)
  else
    match s.claiming with
    | some _ => (false, s)
    | none =>
      (true, { s with
                claiming := some
                  { targetCell := target
                    committedForce := committedForce
                    elapsed := 0
                    required :=
                      requiredTime cfg.baseTime cfg.forceNorm cfg.maxBonus
                        committedForce } })

/-- Modelled from the spec: §4.3 `tick(deltaTime)` — "advances any
Claiming record's elapsed time; on reaching `required`, transitions it to
Owned (sets owned flag, increments territory, clears the record)". -/
def tickGated (s : GatedState) (dt : ℚ) : GatedState :=
  match s.claiming with
  | none => s
  | some c =>
    let e := c.elapsed + dt
    if c.required ≤ e then
      { centerOwned := s.centerOwned.set c.targetCell true
        territorySize := s.territorySize + 1
        claiming := none }
    else { s with claiming := some { c with elapsed := e } }

/-- Run a sequence of ticks on the time-gated engine. -/
def runTicks (s : GatedState) (dts : List ℚ) : GatedState :=
  dts.foldl tickGated s

/-- A concrete built world: three collinear cell centers, the third a water
cell, the first owned. -/
def exW1 : WorldState :=
  { centers := [⟨0, 0, 0⟩, ⟨10, 0, 0⟩, ⟨20, 0, 0⟩]
    centerNeighbors := [[1], [0, 2], [1]]
    centerWater := [false, false, true]
    centerOwned := [true, false, false]
    centerLat := [0, 0, 0]
    centerLng := [0, 10, 20]
    hexagons := ["h0", "h1", "h2"]
    biomes := [Biome.land, Biome.land, Biome.ocean]
    elevations := [6/10, 6/10, 2/10]
    territorySize := 1
    capitalPlaced := false
    cities := []
    projectiles := [] }

/-- A concrete snapshot of two adjacent land cells, nothing owned. -/
def exData : WorldData :=
  { centers := [⟨0, 0, 0⟩, ⟨10, 0, 0⟩]
    centerNeighbors := [[1], [0]]
    centerWater := [false, false]
    centerLat := [0, 0]
    centerLng := [0, 10]
    hexagons := ["h0", "h1"]
    biomes := [Biome.land, Biome.land]
    elevations := [6/10, 6/10] }

/-- A structurally corrupt snapshot: one center, an out-of-bounds neighbor
index, every other parallel array truncated to length zero. -/
def badSnapshot : WorldData :=
  { centers := [⟨0, 0, 0⟩]
    centerNeighbors := [[5]]
    centerWater := []
    centerLat := []
    centerLng := []
    hexagons := []
    biomes := []
    elevations := [] }

example : nearestCell ⟨10, 0, 0⟩ exW1.centers = some 1 := by
  norm_num [nearestCell, nearestAux, distSq, exW1]
example : nearestCell ⟨0, 0, 0⟩ exW1.centers = some 0 := by
  norm_num [nearestCell, nearestAux, distSq, exW1]
example : (startExpansion exW1 (some ⟨10, 0, 0⟩) 50).1 = true := by
  norm_num [startExpansion, nearestCell, nearestAux, distSq, exW1]
example : (startExpansion exW1 (some ⟨20, 0, 0⟩) 50).1 = false := by
  norm_num [startExpansion, nearestCell, nearestAux, distSq, exW1]
example : (placeCapital exW1 (some ⟨20, 0, 0⟩)).1 = false := by
  norm_num [placeCapital, nearestCell, nearestAux, distSq, exW1]
example : (placeCapital exW1 (some ⟨10, 0, 0⟩)).1 = true := by
  norm_num [placeCapital, nearestCell, nearestAux, distSq, exW1, spawnCityAtIndex]
example :
    (placeCapital (placeCapital (buildWorldFromData exData) (some ⟨0, 0, 0⟩)).2
      (some ⟨10, 0, 0⟩)).1 = true := by
  norm_num [placeCapital, nearestCell, nearestAux, distSq, exData,
    buildWorldFromData, spawnCityAtIndex]
example : validSnapshot badSnapshot = false := by decide
example : requiredTime 3 100 2 200 = 3/2 := by
  norm_num [requiredTime]
example :
    (runTicks (requestExpansionGated ⟨3, 100, 2⟩ ⟨[false], 0, none⟩ 0 200).2
      [3/4, 3/4]).centerOwned = [true] := by
  norm_num [runTicks, requestExpansionGated, requiredTime, tickGated]
example :
    (runTicks (requestExpansionGated ⟨3, 100, 2⟩ ⟨[false], 0, none⟩ 0 200).2
      [3/4, 74/100]).centerOwned = [false] := by
  norm_num [runTicks, requestExpansionGated, requiredTime, tickGated]

/-! ### Helper lemmas about list updates -/

lemma getD_set_true_preserve (l : List Bool) :
    ∀ (j i : ℕ), l.getD i false = true → (l.set j true).getD i false = true := by
  induction l with
  | nil => intro j i h; simp at h
  | cons a t ih =>
    intro j i h
    cases j with
    | zero =>
      cases i with
      | zero => rfl
      | succ i2 => simpa using h
    | succ j2 =>
      cases i with
      | zero => exact h
      | succ i2 =>
        have := ih j2 i2 (by simpa using h)
        simpa using this

lemma getD_set_true_cases (l : List Bool) :
    ∀ (j i : ℕ), (l.set j true).getD i false = true →
      l.getD i false = true ∨ i = j := by
  induction l with
  | nil => intro j i h; simp at h
  | cons a t ih =>
    intro j i h
    cases j with
    | zero =>
      cases i with
      | zero => exact Or.inr rfl
      | succ i2 => exact Or.inl (by simpa using h)
    | succ j2 =>
      cases i with
      | zero => exact Or.inl h
      | succ i2 =>
        rcases ih j2 i2 (by simpa using h) with h2 | h2
        · exact Or.inl (by simpa using h2)
        · exact Or.inr (by omega)

lemma getD_replicate_false (n i : ℕ) :
    (List.replicate n false).getD i false = false := by
  induction n generalizing i with
  | zero => rfl
  | succ m ih =>
    cases i with
    | zero => rfl
    | succ i2 => simp [ih i2]

/-! ### Helper lemmas about the nearest-cell scan -/

lemma nearestAux_some_spec (pt : Vec3) (l : List Vec3) :
    ∀ (i bi : ℕ) (bd : ℚ),
      ∃ ri rd, nearestAux pt l i (some (bi, bd)) = some (ri, rd) ∧
        rd ≤ bd ∧
        (∀ k c, l.get? k = some c → rd ≤ distSq pt c) ∧
        ((ri = bi ∧ rd = bd) ∨
          ∃ k c, l.get? k = some c ∧ ri = i + k ∧ rd = distSq pt c ∧ rd < bd ∧
            ∀ k2 c2, k2 < k → l.get? k2 = some c2 → rd < distSq pt c2) := by
  induction l with
  | nil =>
    intro i bi bd
    refine ⟨bi, bd, rfl, le_rfl, ?_, Or.inl ⟨rfl, rfl⟩⟩
    intro k c hk
    simp at hk
  | cons c0 rest ih =>
    intro i bi bd
    have hstep : nearestAux pt (c0 :: rest) i (some (bi, bd)) =
        nearestAux pt rest (i + 1)
          (if distSq pt c0 < bd then some (i, distSq pt c0) else some (bi, bd)) := rfl
    by_cases hd : distSq pt c0 < bd
    · rw [hstep, if_pos hd]
      obtain ⟨ri, rd, heq, hle, hall, hdisj⟩ := ih (i + 1) i (distSq pt c0)
      refine ⟨ri, rd, heq, (hle.trans_lt hd).le, ?_, ?_⟩
      · intro k c hk
        cases k with
        | zero => cases hk; exact hle
        | succ k2 => exact hall k2 c hk
      · rcases hdisj with ⟨h1, h2⟩ | ⟨k, c, hget, hri, hrd, hlt, hmin⟩
        · refine Or.inr ⟨0, c0, rfl, by omega, h2, h2 ▸ hd, ?_⟩
          intro k2 c2 hk2 _
          omega
        · refine Or.inr ⟨k + 1, c, hget, by omega, hrd, hlt.trans hd, ?_⟩
          intro k2 c2 hk2 hc2
          cases k2 with
          | zero => cases hc2; exact hlt
          | succ j => exact hmin j c2 (by omega) hc2
    · rw [hstep, if_neg hd]
      have hbd : bd ≤ distSq pt c0 := le_of_not_lt hd
      obtain ⟨ri, rd, heq, hle, hall, hdisj⟩ := ih (i + 1) bi bd
      refine ⟨ri, rd, heq, hle, ?_, ?_⟩
      · intro k c hk
        cases k with
        | zero => cases hk; exact hle.trans hbd
        | succ k2 => exact hall k2 c hk
      · rcases hdisj with ⟨h1, h2⟩ | ⟨k, c, hget, hri, hrd, hlt, hmin⟩
        · exact Or.inl ⟨h1, h2⟩
        · refine Or.inr ⟨k + 1, c, hget, by omega, hrd, hlt, ?_⟩
          intro k2 c2 hk2 hc2
          cases k2 with
          | zero => cases hc2; exact hlt.trans_le hbd
          | succ j => exact hmin j c2 (by omega) hc2

lemma nearestCell_none (pt : Vec3) : nearestCell pt [] = none := rfl

lemma nearestCell_isSome (pt : Vec3) (cs : List Vec3) (hne : cs ≠ []) :
    ∃ i, nearestCell pt cs = some i := by
  cases cs with
  | nil => exact absurd rfl hne
  | cons c0 rest =>
    have hstep : nearestCell pt (c0 :: rest) =
        (nearestAux pt rest 1 (some (0, distSq pt c0))).map Prod.fst := rfl
    obtain ⟨ri, rd, heq, -, -, -⟩ := nearestAux_some_spec pt rest 1 0 (distSq pt c0)
    exact ⟨ri, by rw [hstep, heq]; rfl⟩

lemma nearestCell_spec (pt : Vec3) (cs : List Vec3) (i : ℕ)
    (h : nearestCell pt cs = some i) :
    ∃ ci, cs.get? i = some ci ∧
      (∀ j c, cs.get? j = some c → distSq pt ci ≤ distSq pt c) ∧
      (∀ j c, cs.get? j = some c → distSq pt c = distSq pt ci → i ≤ j) := by
  cases cs with
  | nil => simp [nearestCell, nearestAux] at h
  | cons c0 rest =>
    have hstep : nearestCell pt (c0 :: rest) =
        (nearestAux pt rest 1 (some (0, distSq pt c0))).map Prod.fst := rfl
    obtain ⟨ri, rd, heq, hle, hall, hdisj⟩ :=
      nearestAux_some_spec pt rest 1 0 (distSq pt c0)
    rw [hstep, heq] at h
    have hi : i = ri := by
      simpa using h.symm
    subst hi
    rcases hdisj with ⟨h1, h2⟩ | ⟨k, c, hget, hri, hrd, hlt, hmin⟩
    · subst h1
      refine ⟨c0, rfl, ?_, ?_⟩
      · intro j c hj
        cases j with
        | zero => cases hj; exact le_rfl
        | succ j2 => exact h2 ▸ hall j2 c hj
      · intro j c hj hc
        omega
    · subst hri
      refine ⟨c, ?_, ?_, ?_⟩
      · show (c0 :: rest).get? (1 + k) = some c
        rw [Nat.add_comm]
        exact hget
      · intro j cj hj
        cases j with
        | zero => cases hj; exact hrd ▸ hlt.le
        | succ j2 => exact hrd ▸ hall j2 cj hj
      · intro j cj hj hc
        cases j with
        | zero =>
          cases hj
          exact absurd (hc ▸ hrd ▸ hlt) (lt_irrefl _)
        | succ j2 =>
          have : ¬ j2 < k := by
            intro hjk
            have := hmin j2 cj hjk hj
            rw [hc, hrd] at this
            exact lt_irrefl _ this
          omega


/-! ### Step lemmas for the operation semantics -/

lemma placeCapital_snd (w : WorldState) (input : Option Vec3) :
    (placeCapital w input).2 = w ∨
      ∃ best, w.centerWater.getD best false = false ∧
        (placeCapital w input).2 = spawnCityAtIndex w best "Capital" := by
  cases input with
  | none => exact Or.inl rfl
  | some pt =>
    cases hnc : nearestCell pt w.centers with
    | none =>
      simp only [placeCapital, hnc]
      exact Or.inl trivial
    | some best =>
      by_cases hw : w.centerWater.getD best false = true
      · simp only [placeCapital, hnc, hw, if_true]
        exact Or.inl trivial
      · have hw2 : w.centerWater.getD best false = false := by
          simpa using hw
        simp only [placeCapital, hnc, hw2]
        rw [if_neg Bool.false_ne_true]
        exact Or.inr ⟨best, hw2, rfl⟩

lemma startExpansion_snd (w : WorldState) (input : Option Vec3) (s : ℚ) :
    (startExpansion w input s).2 = w ∨
      ∃ best, w.centerWater.getD best false = false ∧
        (startExpansion w input s).2 =
          { w with
            centerOwned := w.centerOwned.set best true
            territorySize := w.territorySize + 1 } := by
  cases input with
  | none => exact Or.inl rfl
  | some pt =>
    cases hnc : nearestCell pt w.centers with
    | none =>
      simp only [startExpansion, hnc]
      exact Or.inl trivial
    | some best =>
      by_cases hw : w.centerWater.getD best false = true
      · simp only [startExpansion, hnc, hw, if_true]
        exact Or.inl trivial
      · have hw2 : w.centerWater.getD best false = false := by
          simpa using hw
        simp only [startExpansion, hnc, hw2]
        rw [if_neg Bool.false_ne_true]
        by_cases hg : (w.centerOwned.any (fun v => v) &&
            !(w.centerNeighbors.getD best []).any
              (fun n => w.centerOwned.getD n false)) = true
        · rw [hg, if_pos rfl]
          exact Or.inl rfl
        · have hg2 : (w.centerOwned.any (fun v => v) &&
              !(w.centerNeighbors.getD best []).any
                (fun n => w.centerOwned.getD n false)) = false := by
            simpa using hg
          rw [hg2, if_neg Bool.false_ne_true]
          exact Or.inr ⟨best, hw2, rfl⟩

lemma spawnCityAtIndex_water (w : WorldState) (idx : ℕ) (nm : String) :
    (spawnCityAtIndex w idx nm).centerWater = w.centerWater := rfl

lemma applyOp_water (w : WorldState) (op : Op) :
    (applyOp w op).centerWater = w.centerWater := by
  cases op with
  | update d g => rfl
  | placeCapital input =>
    rcases placeCapital_snd w input with h | ⟨best, -, h⟩ <;>
      simp [applyOp, h, spawnCityAtIndex_water]
  | startExpansion input s =>
    rcases startExpansion_snd w input s with h | ⟨best, -, h⟩ <;>
      simp [applyOp, h]

lemma applyOp_mono (w : WorldState) (op : Op) :
    (∀ i, w.centerOwned.getD i false = true →
      (applyOp w op).centerOwned.getD i false = true) ∧
    w.territorySize ≤ (applyOp w op).territorySize := by
  cases op with
  | update d g => exact ⟨fun i h => h, le_rfl⟩
  | placeCapital input =>
    rcases placeCapital_snd w input with h | ⟨best, -, h⟩
    · show (∀ i, _ → (placeCapital w input).2.centerOwned.getD i false = true) ∧
        w.territorySize ≤ (placeCapital w input).2.territorySize
      rw [h]
      exact ⟨fun i hi => hi, le_rfl⟩
    · show (∀ i, _ → (placeCapital w input).2.centerOwned.getD i false = true) ∧
        w.territorySize ≤ (placeCapital w input).2.territorySize
      rw [h]
      exact ⟨fun i hi => getD_set_true_preserve _ _ _ hi, Nat.le_succ _⟩
  | startExpansion input s =>
    rcases startExpansion_snd w input s with h | ⟨best, -, h⟩
    · show (∀ i, _ → (startExpansion w input s).2.centerOwned.getD i false = true) ∧
        w.territorySize ≤ (startExpansion w input s).2.territorySize
      rw [h]
      exact ⟨fun i hi => hi, le_rfl⟩
    · show (∀ i, _ → (startExpansion w input s).2.centerOwned.getD i false = true) ∧
        w.territorySize ≤ (startExpansion w input s).2.territorySize
      rw [h]
      exact ⟨fun i hi => getD_set_true_preserve _ _ _ hi, Nat.le_succ _⟩

lemma runOps_mono (ops : List Op) :
    ∀ (w : WorldState),
      (∀ i, w.centerOwned.getD i false = true →
        (runOps w ops).centerOwned.getD i false = true) ∧
      w.territorySize ≤ (runOps w ops).territorySize := by
  induction ops with
  | nil => exact fun w => ⟨fun i h => h, le_rfl⟩
  | cons op rest ih =>
    intro w
    have h1 := applyOp_mono w op
    have h2 := ih (applyOp w op)
    exact ⟨fun i h => h2.1 i (h1.1 i h), h1.2.trans h2.2⟩

/-- The owned-implies-land invariant is preserved by every operation. -/
lemma applyOp_ownedLand (w : WorldState) (op : Op)
    (hinv : ∀ i, w.centerOwned.getD i false = true →
      w.centerWater.getD i false = false) :
    ∀ i, (applyOp w op).centerOwned.getD i false = true →
      (applyOp w op).centerWater.getD i false = false := by
  intro i hi
  rw [applyOp_water]
  cases op with
  | update d g => exact hinv i hi
  | placeCapital input =>
    rcases placeCapital_snd w input with h | ⟨best, hbw, h⟩
    · have : (applyOp w (Op.placeCapital input)).centerOwned = w.centerOwned := by
        show (placeCapital w input).2.centerOwned = _
        rw [h]
      rw [this] at hi
      exact hinv i hi
    · have : (applyOp w (Op.placeCapital input)).centerOwned =
          w.centerOwned.set best true := by
        show (placeCapital w input).2.centerOwned = _
        rw [h]
        rfl
      rw [this] at hi
      rcases getD_set_true_cases _ _ _ hi with h2 | h2
      · exact hinv i h2
      · exact h2 ▸ hbw
  | startExpansion input s =>
    rcases startExpansion_snd w input s with h | ⟨best, hbw, h⟩
    · have : (applyOp w (Op.startExpansion input s)).centerOwned = w.centerOwned := by
        show (startExpansion w input s).2.centerOwned = _
        rw [h]
      rw [this] at hi
      exact hinv i hi
    · have : (applyOp w (Op.startExpansion input s)).centerOwned =
          w.centerOwned.set best true := by
        show (startExpansion w input s).2.centerOwned = _
        rw [h]
      rw [this] at hi
      rcases getD_set_true_cases _ _ _ hi with h2 | h2
      · exact hinv i h2
      · exact h2 ▸ hbw

lemma runOps_ownedLand (ops : List Op) :
    ∀ (w : WorldState),
      (∀ i, w.centerOwned.getD i false = true →
        w.centerWater.getD i false = false) →
      ∀ i, (runOps w ops).centerOwned.getD i false = true →
        (runOps w ops).centerWater.getD i false = false := by
  induction ops with
  | nil => exact fun w h => h
  | cons op rest ih =>
    intro w hinv
    exact ih (applyOp w op) (applyOp_ownedLand w op hinv)

/-! ### Run lemmas for the spec-modelled time-gated engine -/

lemma runTicks_no_claim (dts : List ℚ) :
    ∀ (s : GatedState), s.claiming = none → runTicks s dts = s := by
  induction dts with
  | nil => intro s _; rfl
  | cons d rest ih =>
    intro s h
    have hstep : tickGated s d = s := by
      simp only [tickGated, h]
    show runTicks (tickGated s d) rest = s
    rw [hstep]
    exact ih s h

lemma runTicks_complete (dts : List ℚ) :
    ∀ (s : GatedState) (c : ClaimRec),
      (∀ d ∈ dts, 0 ≤ d) →
      s.claiming = some c →
      c.elapsed < c.required →
      c.required ≤ c.elapsed + dts.sum →
      (runTicks s dts).centerOwned = s.centerOwned.set c.targetCell true ∧
      (runTicks s dts).territorySize = s.territorySize + 1 ∧
      (runTicks s dts).claiming = none := by
  induction dts with
  | nil =>
    intro s c _ _ hlt hsum
    rw [List.sum_nil, add_zero] at hsum
    exact absurd hsum (not_le.mpr hlt)
  | cons d rest ih =>
    intro s c hpos hc hlt hsum
    by_cases hdone : c.required ≤ c.elapsed + d
    · have hstate : tickGated s d =
          { centerOwned := s.centerOwned.set c.targetCell true
            territorySize := s.territorySize + 1
            claiming := none } := by
        simp only [tickGated, hc]
        rw [if_pos hdone]
      show (runTicks (tickGated s d) rest).centerOwned =
            s.centerOwned.set c.targetCell true ∧
          (runTicks (tickGated s d) rest).territorySize = s.territorySize + 1 ∧
          (runTicks (tickGated s d) rest).claiming = none
      rw [hstate, runTicks_no_claim rest _ rfl]
      exact ⟨rfl, rfl, rfl⟩
    · have hstate : tickGated s d =
          { s with claiming := some { c with elapsed := c.elapsed + d } } := by
        simp only [tickGated, hc]
        rw [if_neg hdone]
      have hd : 0 ≤ d := hpos d (List.mem_cons_self d rest)
      have hrest : ∀ x ∈ rest, 0 ≤ x := fun x hx => hpos x (List.mem_cons_of_mem d hx)
      have hsum2 : c.required ≤ (c.elapsed + d) + rest.sum := by
        rw [List.sum_cons] at hsum
        linarith
    
      have hrec := ih { s with claiming := some { c with elapsed := c.elapsed + d } }
        { c with elapsed := c.elapsed + d } hrest rfl (not_le.mp hdone) hsum2
      show (runTicks (tickGated s d) rest).centerOwned =
            s.centerOwned.set c.targetCell true ∧
          (runTicks (tickGated s d) rest).territorySize = s.territorySize + 1 ∧
          (runTicks (tickGated s d) rest).claiming = none
      rw [hstate]
      exact hrec

lemma runTicks_incomplete (dts : List ℚ) :
    ∀ (s : GatedState) (c : ClaimRec),
      (∀ d ∈ dts, 0 ≤ d) →
      s.claiming = some c →
      c.elapsed + dts.sum < c.required →
      runTicks s dts =
        { s with claiming := some { c with elapsed := c.elapsed + dts.sum } } := by
  induction dts with
  | nil =>
    intro s c _ hc _
    rw [List.sum_nil]
    show s = _
    rw [add_zero]
    have hca : ({ c with elapsed := c.elapsed } : ClaimRec) = c := rfl
    rw [hca, ← hc]
  | cons d rest ih =>
    intro s c hpos hc hsum
    have hd : 0 ≤ d := hpos d (List.mem_cons_self d rest)
    have hrest : ∀ x ∈ rest, 0 ≤ x := fun x hx => hpos x (List.mem_cons_of_mem d hx)
    have hrsum : 0 ≤ rest.sum := List.sum_nonneg hrest
    rw [List.sum_cons] at hsum
    have hdone : ¬ c.required ≤ c.elapsed + d := by
      intro hle
      linarith
    have hstate : tickGated s d =
        { s with claiming := some { c with elapsed := c.elapsed + d } } := by
      simp only [tickGated, hc]
      rw [if_neg hdone]
    have hsum2 : (c.elapsed + d) + rest.sum < c.required := by linarith
    have := ih { s with claiming := some { c with elapsed := c.elapsed + d } }
      { c with elapsed := c.elapsed + d } hrest rfl hsum2
    show runTicks (tickGated s d) rest = _
    rw [hstate, this, List.sum_cons]
    have hadd : c.elapsed + d + rest.sum = c.elapsed + (d + rest.sum) := by ring
    rw [hadd]

lemma get?_some_lt {α : Type} (l : List α) (n : ℕ) (a : α) (h : l.get? n = some a) :
    n < l.length :=
  (List.get?_eq_some.mp h).1

lemma getD_set_true_self (l : List Bool) :
    ∀ j, j < l.length → (l.set j true).getD j false = true := by
  induction l with
  | nil => intro j h; simp at h
  | cons a t ih =>
    intro j h
    cases j with
    | zero => rfl
    | succ j2 => exact ih j2 (by simpa using h)

/-! ### Claim theorems -/

/-- C5: The nearest-cell mapping (the single scan shared by `placeCapital`,
`startExpansion` and `isSea`) returns, for every query point and non-empty
center set, the index minimizing squared Euclidean distance to the cell
centers, with ties broken by the lowest index; and it is deterministic —
two resolutions of the same point on the same centers give the same
index. -/
theorem nearestCell_argmin (pt : Vec3) (cs : List Vec3) :
    (cs ≠ [] → ∃ i, nearestCell pt cs = some i) ∧
    (∀ i, nearestCell pt cs = some i →
      ∃ ci, cs.get? i = some ci ∧
        (∀ j c, cs.get? j = some c → distSq pt ci ≤ distSq pt c) ∧
        (∀ j c, cs.get? j = some c → distSq pt c = distSq pt ci → i ≤ j)) ∧
    (∀ i i2, nearestCell pt cs = some i → nearestCell pt cs = some i2 → i = i2) := by
  refine ⟨nearestCell_isSome pt cs, nearestCell_spec pt cs, ?_⟩
  intro i i2 h1 h2
  rw [h1] at h2
  exact Option.some.inj h2

/-- C5 witness: on a concrete two-cell world the resolution exists and is
the distance-minimizing index. -/
theorem nearestCell_argmin_witness :
    ∃ i, nearestCell ⟨0, 0, 0⟩ [⟨1, 0, 0⟩, ⟨0, 0, 0⟩] = some i :=
  (nearestCell_argmin ⟨0, 0, 0⟩ [⟨1, 0, 0⟩, ⟨0, 0, 0⟩]).1 (by simp)

/-- C1: `startExpansion` on a built world: a point resolving to a water
cell is always rejected; a point resolving to a non-water cell succeeds
and marks the cell owned when the cell has an owned neighbor (or when
nothing is owned anywhere yet), and is rejected when something is owned
somewhere but the target has no owned neighbor. -/
theorem startExpansion_adjacency_gate (w : WorldState) (pt : Vec3) (s : ℚ) (best : ℕ)
    (hres : nearestCell pt w.centers = some best)
    (hlen : w.centerOwned.length = w.centers.length) :
    (w.centerWater.getD best false = true →
      startExpansion w (some pt) s = (false, w)) ∧
    (w.centerWater.getD best false = false →
      ((w.centerOwned.any (fun v => v) = true →
          (w.centerNeighbors.getD best []).any
            (fun n => w.centerOwned.getD n false) = true →
          (startExpansion w (some pt) s).1 = true ∧
          (startExpansion w (some pt) s).2.centerOwned.getD best false = true) ∧
        (w.centerOwned.any (fun v => v) = true →
          (w.centerNeighbors.getD best []).any
            (fun n => w.centerOwned.getD n false) = false →
          startExpansion w (some pt) s = (false, w)) ∧
        (w.centerOwned.any (fun v => v) = false →
          (startExpansion w (some pt) s).1 = true ∧
          (startExpansion w (some pt) s).2.centerOwned.getD best false = true))) := by
  have hlt : best < w.centers.length := by
    obtain ⟨ci, hget, -, -⟩ := nearestCell_spec pt w.centers best hres
    exact get?_some_lt _ _ _ hget
  have howned : best < w.centerOwned.length := hlen ▸ hlt
  constructor
  · intro hw
    simp only [startExpansion, hres, hw, if_true]
  · intro hw
    refine ⟨?_, ?_, ?_⟩
    · intro hany hadj
      simp only [startExpansion, hres, hw]
      rw [if_neg Bool.false_ne_true]
      simp only [hadj, Bool.not_true, Bool.and_false]
      rw [if_neg Bool.false_ne_true]
      exact ⟨rfl, getD_set_true_self _ best howned⟩
    · intro hany hadj
      simp only [startExpansion, hres, hw]
      rw [if_neg Bool.false_ne_true]
      simp only [hany, hadj, Bool.not_false, Bool.and_true, if_true]
    · intro hany
      simp only [startExpansion, hres, hw]
      rw [if_neg Bool.false_ne_true]
      simp only [hany, Bool.false_and]
      rw [if_neg Bool.false_ne_true]
      exact ⟨rfl, getD_set_true_self _ best howned⟩

/-- C1 witness: on the concrete world `exW1` (cell 0 owned), expanding at
the point of cell 1 — a land cell whose neighbor 0 is owned — succeeds and
marks cell 1 owned. -/
theorem startExpansion_adjacency_gate_witness :
    (startExpansion exW1 (some ⟨10, 0, 0⟩) 50).1 = true ∧
    (startExpansion exW1 (some ⟨10, 0, 0⟩) 50).2.centerOwned.getD 1 false = true :=
  (((startExpansion_adjacency_gate exW1 ⟨10, 0, 0⟩ 50 1
      (by norm_num [nearestCell, nearestAux, distSq, exW1]) rfl).2 rfl).1) rfl rfl

/-- C2: Across any sequence of `update`, `placeCapital` and
`startExpansion` calls, no cell's owned flag ever transitions from true to
false, and `territorySize` never decreases. -/
theorem ownership_monotone (w : WorldState) (ops : List Op) (i : ℕ) :
    (w.centerOwned.getD i false = true →
      (runOps w ops).centerOwned.getD i false = true) ∧
    w.territorySize ≤ (runOps w ops).territorySize :=
  ⟨(runOps_mono ops w).1 i, (runOps_mono ops w).2⟩

/-- C2 witness: on `exW1` (cell 0 owned, territory 1), after an update and
an expansion the owned flag of cell 0 still holds and territory has not
decreased. -/
theorem ownership_monotone_witness :
    (runOps exW1 [Op.update 1 true, Op.startExpansion (some ⟨10, 0, 0⟩) 50]).centerOwned.getD
        0 false = true ∧
    exW1.territorySize ≤
      (runOps exW1 [Op.update 1 true, Op.startExpansion (some ⟨10, 0, 0⟩) 50]).territorySize :=
  ⟨(ownership_monotone exW1 [Op.update 1 true, Op.startExpansion (some ⟨10, 0, 0⟩) 50] 0).1 rfl,
   (ownership_monotone exW1 [Op.update 1 true, Op.startExpansion (some ⟨10, 0, 0⟩) 50] 0).2⟩

/-- C10: Starting from a freshly built world (no cell owned), after any
sequence of operations every owned cell is a non-water cell. -/
theorem owned_implies_land (d : WorldData) (ops : List Op) (i : ℕ)
    (h : (runOps (buildWorldFromData d) ops).centerOwned.getD i false = true) :
    (runOps (buildWorldFromData d) ops).centerWater.getD i false = false := by
  refine runOps_ownedLand ops (buildWorldFromData d) ?_ i h
  intro j hj
  rw [buildWorldFromData] at hj
  simp only at hj
  rw [getD_replicate_false] at hj
  exact absurd hj (by simp)

/-- C10 witness: building from the concrete snapshot `exData` and placing
a capital at cell 0 leaves cell 0 owned, and indeed cell 0 is land. -/
theorem owned_implies_land_witness :
    (runOps (buildWorldFromData exData)
        [Op.placeCapital (some ⟨0, 0, 0⟩)]).centerWater.getD 0 false = false :=
  owned_implies_land exData [Op.placeCapital (some ⟨0, 0, 0⟩)] 0
    (by norm_num [runOps, applyOp, placeCapital, nearestCell, nearestAux, distSq,
      exData, buildWorldFromData, spawnCityAtIndex, List.foldl])

/-- C4 counterexample: on the concrete world `exW1`, a first `placeCapital`
on land cell 1 succeeds — a capital is now placed — and a second
`placeCapital` call still returns true and changes state again (territory
grows, a second City is pushed), contradicting the claim that it must
return false once a capital has been placed. -/
theorem placeCapital_second_capital_succeeds :
    (placeCapital exW1 (some ⟨10, 0, 0⟩)).1 = true ∧
    (placeCapital exW1 (some ⟨10, 0, 0⟩)).2.cities.length = 1 ∧
    (placeCapital (placeCapital exW1 (some ⟨10, 0, 0⟩)).2 (some ⟨0, 0, 0⟩)).1 = true ∧
    (placeCapital (placeCapital exW1 (some ⟨10, 0, 0⟩)).2
        (some ⟨0, 0, 0⟩)).2.territorySize =
      (placeCapital exW1 (some ⟨10, 0, 0⟩)).2.territorySize + 1 := by
  norm_num [placeCapital, nearestCell, nearestAux, distSq, exW1, spawnCityAtIndex]

/-- C4 (amended): `placeCapital` returns false and leaves the state
unchanged whenever the nearest cell to the point is water; on a non-water
nearest cell it returns true and spawns the capital city — there is no
single-capital guard, so this holds whether or not a capital was already
placed. -/
theorem placeCapital_water_gate (w : WorldState) (pt : Vec3) (best : ℕ)
    (hres : nearestCell pt w.centers = some best) :
    (w.centerWater.getD best false = true →
      placeCapital w (some pt) = (false, w)) ∧
    (w.centerWater.getD best false = false →
      (placeCapital w (some pt)).1 = true ∧
      (placeCapital w (some pt)).2 = spawnCityAtIndex w best "Capital") := by
  constructor
  · intro hw
    simp only [placeCapital, hres, hw, if_true]
  · intro hw
    simp only [placeCapital, hres, hw]
    rw [if_neg Bool.false_ne_true]
    exact ⟨rfl, rfl⟩

/-- C4 witness: on `exW1`, the point of water cell 2 is rejected with no
state change, and the point of land cell 1 is accepted. -/
theorem placeCapital_water_gate_witness :
    placeCapital exW1 (some ⟨20, 0, 0⟩) = (false, exW1) ∧
    (placeCapital exW1 (some ⟨10, 0, 0⟩)).1 = true :=
  ⟨(placeCapital_water_gate exW1 ⟨20, 0, 0⟩ 2
      (by norm_num [nearestCell, nearestAux, distSq, exW1])).1 rfl,
   ((placeCapital_water_gate exW1 ⟨10, 0, 0⟩ 1
      (by norm_num [nearestCell, nearestAux, distSq, exW1])).2 rfl).1⟩

/-- C6: Each generated cell's biome is decided by the fixed priority chain
(first match wins): pole when `|lat| > 72`, else ocean when
`elevation < 0.5`, else coast when `elevation < 0.53`, else mountain when
`elevation > 0.8`, else desert or land by the dryness sample; in
particular the pole case wins regardless of elevation, and every cell of
`generateWorldData` gets its biome from exactly this chain. -/
theorem biome_decision_table :
    (∀ lat elevation dry : ℚ, 72 < |lat| →
      classifyBiome lat elevation dry = Biome.pole) ∧
    (∀ lat elevation dry : ℚ, |lat| ≤ 72 → elevation < 1/2 →
      classifyBiome lat elevation dry = Biome.ocean) ∧
    (∀ lat elevation dry : ℚ, |lat| ≤ 72 → 1/2 ≤ elevation →
      elevation < 1/2 + 3/100 → classifyBiome lat elevation dry = Biome.coast) ∧
    (∀ lat elevation dry : ℚ, |lat| ≤ 72 → 1/2 + 3/100 ≤ elevation →
      4/5 < elevation → classifyBiome lat elevation dry = Biome.mountain) ∧
    (∀ lat elevation dry : ℚ, |lat| ≤ 72 → 1/2 + 3/100 ≤ elevation →
      elevation ≤ 4/5 → 7/10 < dry →
      classifyBiome lat elevation dry = Biome.desert) ∧
    (∀ lat elevation dry : ℚ, |lat| ≤ 72 → 1/2 + 3/100 ≤ elevation →
      elevation ≤ 4/5 → dry ≤ 7/10 →
      classifyBiome lat elevation dry = Biome.land) ∧
    (∀ (hexs : List String) (latlng : String → ℚ × ℚ)
        (disk : String → List String) (toVec : ℚ → ℚ → Vec3)
        (elevOf : ℚ → ℚ → ℚ) (dryOf : Vec3 → ℚ) (i : ℕ) (h : String),
      hexs.get? i = some h →
      (generateWorldData hexs latlng disk toVec elevOf dryOf).biomes.get? i =
        some (classifyBiome (latlng h).1 (elevOf (latlng h).1 (latlng h).2)
          (dryOf (toVec (latlng h).1 (latlng h).2)))) := by
  refine ⟨?_, ?_, ?_, ?_, ?_, ?_, ?_⟩
  · intro lat e d h1
    simp only [classifyBiome]
    rw [if_pos h1]
  · intro lat e d h1 h2
    simp only [classifyBiome]
    rw [if_neg (not_lt.mpr h1), if_pos h2]
  · intro lat e d h1 h2 h3
    simp only [classifyBiome]
    rw [if_neg (not_lt.mpr h1), if_neg (not_lt.mpr h2), if_pos h3]
  · intro lat e d h1 h2 h3
    simp only [classifyBiome]
    rw [if_neg (not_lt.mpr h1), if_neg (not_lt.mpr (by linarith)),
      if_neg (not_lt.mpr h2), if_pos h3]
  · intro lat e d h1 h2 h3 h4
    simp only [classifyBiome]
    rw [if_neg (not_lt.mpr h1), if_neg (not_lt.mpr (by linarith)),
      if_neg (not_lt.mpr h2), if_neg (not_lt.mpr h3), if_pos h4]
  · intro lat e d h1 h2 h3 h4
    simp only [classifyBiome]
    rw [if_neg (not_lt.mpr h1), if_neg (not_lt.mpr (by linarith)),
      if_neg (not_lt.mpr h2), if_neg (not_lt.mpr h3), if_neg (not_lt.mpr h4)]
  · intro hexs latlng disk toVec elevOf dryOf i h hget
    simp only [generateWorldData]
    rw [List.get?_map, hget]
    rfl

/-- C6 witness: a polar cell (latitude 80) is classified pole even at high
elevation, and a mid-latitude high cell is mountain. -/
theorem biome_decision_table_witness :
    classifyBiome 80 (9/10) 0 = Biome.pole ∧
    classifyBiome 10 (9/10) 0 = Biome.mountain :=
  ⟨biome_decision_table.1 80 (9/10) 0 (by norm_num),
   biome_decision_table.2.2.2.1 10 (9/10) 0 (by norm_num) (by norm_num) (by norm_num)⟩

/-- C3: (spec-modelled time-gated policy) a successful expansion request
with the reference parameters `baseTime = 3`, `forceNorm = 100`,
`maxBonus = 2` and `committedForce = 200` opens a Claiming record with
`required = baseTime / min(maxBonus, committedForce/forceNorm) = 1.5`;
ticking by a total of `1.5` transitions the target cell to Owned and
increments territory by exactly one, while ticking by a total of `1.49`
leaves ownership and territory unchanged. -/
theorem gated_capture_timing (s : GatedState) (target : ℕ) (dts : List ℚ)
    (hclaim : s.claiming = none) (hpos : ∀ d ∈ dts, 0 ≤ d) :
    (requestExpansionGated ⟨3, 100, 2⟩ s target 200).1 = true ∧
    (requestExpansionGated ⟨3, 100, 2⟩ s target 200).2.claiming =
      some ⟨target, 200, 0, requiredTime 3 100 2 200⟩ ∧
    requiredTime 3 100 2 200 = 3/2 ∧
    (dts.sum = 3/2 →
      (runTicks (requestExpansionGated ⟨3, 100, 2⟩ s target 200).2 dts).centerOwned =
        s.centerOwned.set target true ∧
      (runTicks (requestExpansionGated ⟨3, 100, 2⟩ s target 200).2 dts).territorySize =
        s.territorySize + 1) ∧
    (dts.sum = 149/100 →
      (runTicks (requestExpansionGated ⟨3, 100, 2⟩ s target 200).2 dts).centerOwned =
        s.centerOwned ∧
      (runTicks (requestExpansionGated ⟨3, 100, 2⟩ s target 200).2 dts).territorySize =
        s.territorySize) := by
  have hreq : requiredTime 3 100 2 200 = 3/2 := by
    norm_num [requiredTime]
  have hstate : requestExpansionGated ⟨3, 100, 2⟩ s target 200 =
      (true, { s with claiming := some ⟨target, 200, 0, requiredTime 3 100 2 200⟩ }) := by
    simp only [requestExpansionGated, hclaim]
    rw [if_neg (by norm_num : ¬ (200 : ℚ) ≤ 0)]
  refine ⟨by rw [hstate], by rw [hstate], hreq, ?_, ?_⟩
  · intro hsum
    have := runTicks_complete dts
      { s with claiming := some ⟨target, 200, 0, requiredTime 3 100 2 200⟩ }
      ⟨target, 200, 0, requiredTime 3 100 2 200⟩ hpos rfl
      (by rw [hreq]; norm_num) (by rw [hreq, hsum]; norm_num)
    rw [hstate]
    exact ⟨this.1, this.2.1⟩
  · intro hsum
    have := runTicks_incomplete dts
      { s with claiming := some ⟨target, 200, 0, requiredTime 3 100 2 200⟩ }
      ⟨target, 200, 0, requiredTime 3 100 2 200⟩ hpos rfl
      (by rw [hreq, hsum]; norm_num)
    rw [hstate, this]
    exact ⟨rfl, rfl⟩

/-- C3 witness: from a one-cell un-owned state, the request opens the
record and two ticks of 0.75 s (total 1.5 s) capture the cell. -/
theorem gated_capture_timing_witness :
    (runTicks (requestExpansionGated ⟨3, 100, 2⟩
        ⟨[false], 0, none⟩ 0 200).2 [3/4, 3/4]).centerOwned =
      ([false] : List Bool).set 0 true ∧
    (runTicks (requestExpansionGated ⟨3, 100, 2⟩
        ⟨[false], 0, none⟩ 0 200).2 [3/4, 3/4]).territorySize = 0 + 1 :=
  ((gated_capture_timing ⟨[false], 0, none⟩ 0 [3/4, 3/4] rfl
      (by norm_num)).2.2.2.1) (by norm_num)

lemma mem_centerNeighborsOf_entry (hexs : List String) (disk : String → List String)
    (a : String) (j : ℕ) :
    (j ∈ ((disk a).filter (fun n => n ≠ a)).filterMap
        (fun n => if n ∈ hexs then some (hexs.indexOf n) else none)) ↔
      ∃ n, n ∈ disk a ∧ n ≠ a ∧ n ∈ hexs ∧ hexs.indexOf n = j := by
  rw [List.mem_filterMap]
  constructor
  · rintro ⟨n, hmem, hif⟩
    rw [List.mem_filter] at hmem
    by_cases hn : n ∈ hexs
    · rw [if_pos hn] at hif
      exact ⟨n, hmem.1, by simpa using hmem.2, hn, Option.some.inj hif⟩
    · rw [if_neg hn] at hif
      exact absurd hif (Option.noConfusion)
  · rintro ⟨n, hdisk, hne, hmem, hidx⟩
    refine ⟨n, List.mem_filter.mpr ⟨hdisk, by simpa using hne⟩, ?_⟩
    rw [if_pos hmem, hidx]

lemma centerNeighborsOf_getD (hexs : List String) (disk : String → List String)
    (i : ℕ) (a : String) (hget : hexs.get? i = some a) :
    (centerNeighborsOf hexs disk).getD i [] =
      ((disk a).filter (fun n => n ≠ a)).filterMap
        (fun n => if n ∈ hexs then some (hexs.indexOf n) else none) := by
  rw [List.getD_eq_getD_get?]
  unfold centerNeighborsOf
  rw [List.get?_map, hget]
  rfl

/-- C7: The generated adjacency of `generateWorldData` is symmetric,
assuming the h3 library contract that the hexagon list from
`polygonToCells` is duplicate-free and that grid adjacency
(`gridDisk(·, 1)`) is a symmetric relation: whenever j appears in
`centerNeighbors[i]`, i appears in `centerNeighbors[j]`. -/
theorem neighbors_symm (hexs : List String) (disk : String → List String)
    (hnd : hexs.Nodup)
    (hsym : ∀ a b, a ∈ hexs → b ∈ hexs → b ∈ disk a → a ∈ disk b) :
    ∀ i j, j ∈ (centerNeighborsOf hexs disk).getD i [] →
      i ∈ (centerNeighborsOf hexs disk).getD j [] := by
  intro i j hj
  cases hgi : hexs.get? i with
  | none =>
    rw [List.getD_eq_getD_get?] at hj
    unfold centerNeighborsOf at hj
    rw [List.get?_map, hgi] at hj
    simp at hj
  | some a =>
    rw [centerNeighborsOf_getD hexs disk i a hgi] at hj
    obtain ⟨n, hdisk, hne, hmem, hidx⟩ :=
      (mem_centerNeighborsOf_entry hexs disk a j).mp hj
    have hamem : a ∈ hexs := List.get?_mem hgi
    have hgj : hexs.get? j = some n := by
      rw [← hidx]
      exact List.indexOf_get? hmem
    rw [centerNeighborsOf_getD hexs disk j n hgj]
    refine (mem_centerNeighborsOf_entry hexs disk n i).mpr
      ⟨a, hsym a n hamem hmem hdisk, hne.symm, hamem, ?_⟩
    obtain ⟨hlti, hgeti⟩ := List.get?_eq_some.mp hgi
    rw [← hgeti]
    exact List.get_indexOf hnd ⟨i, hlti⟩

/-- C7 witness: a concrete two-cell set with a symmetric disk relation —
cell 1 is a neighbor of cell 0 and conversely. -/
theorem neighbors_symm_witness :
    0 ∈ (centerNeighborsOf ["a", "b"]
        (fun h => if h = "a" then ["a", "b"] else ["a", "b"])).getD 1 [] :=
  neighbors_symm ["a", "b"] (fun h => if h = "a" then ["a", "b"] else ["a", "b"])
    (by decide)
    (by intro a b ha hb hd; fin_cases ha <;> fin_cases hb <;> simp_all)
    0 1 (by decide)

/-- C8 counterexample: generation run on zero cells returns normally — an
entirely empty `WorldData` that `buildWorldFromData` then happily builds
into an empty world.  The generation function's type has no error channel
at all, so no InvalidConfiguration error can be surfaced. -/
theorem generate_zero_cells_silent :
    generateWorldData [] (fun _ => (0, 0)) (fun _ => []) (fun _ _ => ⟨0, 0, 0⟩)
        (fun _ _ => 0) (fun _ => 0) =
      { centers := [], centerNeighbors := [], centerWater := [], centerLat := [],
        centerLng := [], hexagons := [], biomes := [], elevations := [] } ∧
    (buildWorldFromData (generateWorldData [] (fun _ => (0, 0)) (fun _ => [])
        (fun _ _ => ⟨0, 0, 0⟩) (fun _ _ => 0) (fun _ => 0))).centers.length = 0 :=
  ⟨rfl, rfl⟩

/-- C8 (amended): `generateWorldData` is total with no failure path: it
always returns a `WorldData` with exactly one entry per hexagon, so a
degenerate cell set silently produces an empty world instead of raising an
InvalidConfiguration error. -/
theorem generate_total_no_error (hexs : List String) (latlng : String → ℚ × ℚ)
    (disk : String → List String) (toVec : ℚ → ℚ → Vec3)
    (elevOf : ℚ → ℚ → ℚ) (dryOf : Vec3 → ℚ) :
    (generateWorldData hexs latlng disk toVec elevOf dryOf).hexagons = hexs ∧
    (generateWorldData hexs latlng disk toVec elevOf dryOf).centers.length =
      hexs.length ∧
    (generateWorldData hexs latlng disk toVec elevOf dryOf).biomes.length =
      hexs.length ∧
    (generateWorldData hexs latlng disk toVec elevOf dryOf).centerWater.length =
      hexs.length := by
  refine ⟨rfl, ?_, ?_, ?_⟩ <;> simp [generateWorldData]

/-- C9 counterexample: the corrupt snapshot `badSnapshot` (mismatched
array lengths, out-of-bounds neighbor index 5 in a 1-cell world) fails the
spec's structural validation, yet `buildWorldFromData` loads it verbatim
into the world state instead of rejecting it. -/
theorem loader_accepts_corrupt_snapshot :
    validSnapshot badSnapshot = false ∧
    (buildWorldFromData badSnapshot).centerNeighbors = [[5]] ∧
    (buildWorldFromData badSnapshot).centerWater = [] ∧
    (buildWorldFromData badSnapshot).centers.length = 1 :=
  ⟨by decide, rfl, rfl, rfl⟩

/-- C9 (amended): the loader performs no structural validation: every
snapshot, including any that fails the spec's array-length and
neighbor-bounds checks, is copied verbatim into the world state. -/
theorem loader_no_validation (d : WorldData) (hbad : validSnapshot d = false) :
    (buildWorldFromData d).centers = d.centers ∧
    (buildWorldFromData d).centerNeighbors = d.centerNeighbors ∧
    (buildWorldFromData d).centerWater = d.centerWater ∧
    (buildWorldFromData d).biomes = d.biomes :=
  ⟨rfl, rfl, rfl, rfl⟩

/-- C9 witness: the corrupt `badSnapshot` is loaded unchanged. -/
theorem loader_no_validation_witness :
    (buildWorldFromData badSnapshot).centerNeighbors = badSnapshot.centerNeighbors :=
  (loader_no_validation badSnapshot (by decide)).2.1
